import Mathlib

/-!
Verification of the label-printing pipeline of the inventree-brother plugin
(`inventree_brother/brother_plugin.py`, method `print_label` of
`BrotherLabelPrinterDriver`).

The embedding models:
  * images structurally (source bitmap, PIL `rotate(expand=True)` at right
    angles, `resize`, and pasting onto a fresh canvas), tracking pixel
    dimensions exactly;
  * `PIL.ImageOps.contain` / `PIL.ImageOps.pad` with Python banker-style
    rounding (`round` is round-half-to-even) done in exact integer
    arithmetic;
  * the externally supplied media catalog (`brother_ql.labels.ALL_LABELS`)
    as a parameter, with the linear last-match-wins scan of the source;
  * `print_label` itself as a pure function from settings, copy count and
    the rendered label image to a trace recording the raster-conversion
    call (`brother_ql.conversion.convert`), the transport calls
    (`brother_ql.backends.helpers.send`) and the error raised, if any;
  * sequential execution of the transport calls against a fallible
    transport, for the partial-failure claims.
-/

namespace BrotherPlugin

/-- Form factors of `brother_ql.labels.FormFactor`. -/
inductive FormFactor where
  | DIE_CUT
  | ENDLESS
  | ROUND_DIE_CUT
  | PTOUCH_ENDLESS
deriving DecidableEq

/-- One entry of the media catalog `brother_ql.labels.ALL_LABELS`: identifier,
form factor and printable area in dots. -/
structure LabelSpec where
  identifier : String
  form_factor : FormFactor
  dots_printable : Nat × Nat
deriving DecidableEq

/-- Structural model of a PIL image: a source bitmap, `rotate(angle, expand=True)`
at a right angle, `resize(size)`, or a fresh canvas of a solid color with another
image pasted at an offset. -/
inductive Image where
  | source (w h : Nat)
  | rotate (img : Image) (angle : Nat)
  | resize (img : Image) (size : Nat × Nat)
  | canvas (size : Nat × Nat) (color : String) (pasted : Image) (pos : Nat × Nat)
deriving DecidableEq

/-- Pixel dimensions (width, height) of an image.  `rotate` is only built at
angles 90/180/270 with `expand=True`, where PIL swaps the dimensions for
90/270 and keeps them for 180. -/
def Image.dims : Image → Nat × Nat
  | .source w h => (w, h)
  | .rotate img a => if a = 90 ∨ a = 270 then ((Image.dims img).2, (Image.dims img).1) else Image.dims img
  | .resize _ s => s
  | .canvas s _ _ _ => s

/-- Width in pixels. -/
def Image.width (i : Image) : Nat := i.dims.1

/-- Height in pixels. -/
def Image.height (i : Image) : Nat := i.dims.2

/-- Python `round(a / b)` on nonnegative integers: round half to even. -/
def pyRoundDiv (a b : Nat) : Nat :=
  let q := a / b
  let r := a % b
  if 2 * r < b then q
  else if 2 * r > b then q + 1
  else if q % 2 = 0 then q else q + 1

namespace ImageOps

/-- `PIL.ImageOps.contain(image, size)`: resize to fit within `size` preserving
the aspect ratio.  The float ratio comparison of PIL is modelled as the exact
integer cross-multiplication. -/
def contain (image : Image) (size : Nat × Nat) : Image :=
  let w := image.width
  let h := image.height
  if w * size.2 ≠ size.1 * h then
    if w * size.2 > size.1 * h then
      let new_height := pyRoundDiv (h * size.1) w
      Image.resize image (if new_height ≠ size.2 then (size.1, new_height) else size)
    else
      let new_width := pyRoundDiv (w * size.2) h
      Image.resize image (if new_width ≠ size.1 then (new_width, size.2) else size)
  else
    Image.resize image size

/-- `PIL.ImageOps.pad(image, size, color=color)` with the default centering
`(0.5, 0.5)`: contain-resize, then center on a canvas of exactly `size` filled
with `color`.  `round((size - w) * 0.5)` is the half-to-even rounding of PIL. -/
def pad (image : Image) (size : Nat × Nat) (color : String) : Image :=
  let resized := contain image size
  if resized.dims = size then
    resized
  else if resized.dims.1 ≠ size.1 then
    Image.canvas size color resized (pyRoundDiv (size.1 - resized.dims.1) 2, 0)
  else
    Image.canvas size color resized (0, pyRoundDiv (size.2 - resized.dims.2) 2)

end ImageOps

/-- Rotation step of `print_label`: `rotation = (int(setting) + 90) % 360`, and
`label_image.rotate(rotation, expand=True)` when the result is 90, 180 or 270. -/
def applyRotation (configured : Nat) (label_image : Image) : Image :=
  let rotation := (configured + 90) % 360
  if rotation = 90 ∨ rotation = 180 ∨ rotation = 270 then
    Image.rotate label_image rotation
  else
    label_image

/-- The machine settings read by `print_label` (MODEL, IP_ADDRESS, USB_DEVICE,
LABEL, ROTATION, AUTO_CUT, COMPRESSION, HQ).  `rotation` is the integer value
of the ROTATION setting. -/
structure Settings where
  model : String
  ip_address : String
  usb_device : String
  media_type : String
  rotation : Nat
  auto_cut : Bool
  compression : Bool
  hq : Bool
deriving DecidableEq

/-- Red-plane selection: `media_type in ["62red"]`. -/
def redFlag (media_type : String) : Bool :=
  if media_type ∈ ["62red"] then true else false

/-- The keyword arguments handed to `brother_ql.conversion.convert` (the `qlr`
raster object is determined by the printer model). -/
structure ConvertParams where
  model : String
  images : List Image
  label : String
  cut : Bool
  rotate : Nat
  compress : Bool
  hq : Bool
  red : Bool
deriving DecidableEq

/-- One call of `brother_ql.backends.helpers.send`.  The opaque instruction
blob returned by `convert` is identified with the parameters that produced
it. -/
structure SendCall where
  instructions : ConvertParams
  printer_identifier : String
  backend_identifier : String
  blocking : Bool
deriving DecidableEq

/-- Errors raised by `print_label` itself: the re-raised `AttributeError` for
an unknown media type, and the `ValueError` for a missing destination. -/
inductive PrintError where
  | attributeError (msg : String)
  | valueError (msg : String)
deriving DecidableEq

/-- Observable behaviour of one `print_label` invocation: the convert calls
made, the transport calls made (in order), and the raised error, if any. -/
structure Trace where
  convert_calls : List ConvertParams
  sends : List SendCall
  error : Option PrintError
deriving DecidableEq

/-- Linear scan of the catalog: `for label_specs in ALL_LABELS: if
label_specs.identifier == media_type: media_specs = label_specs` (the last
match wins). -/
def lookupMedia (catalog : List LabelSpec) (media_type : String) : Option LabelSpec :=
  catalog.foldl (fun acc label_specs =>
    if label_specs.identifier = media_type then some label_specs else acc) none

/-- Assembly of the `params` dictionary of `print_label` (with `rotate: 0`). -/
def mkConvertParams (s : Settings) (printable_image : Image) : ConvertParams :=
  { model := s.model
    images := [printable_image]
    label := s.media_type
    cut := s.auto_cut
    rotate := 0
    compress := s.compression
    hq := s.hq
    red := redFlag s.media_type }

/-- The branch on form factor: die-cut media are padded to the printable area
on a white canvas, all other form factors pass through unchanged. -/
def printableOf (specs : LabelSpec) (label_image : Image) : Image :=
  if specs.form_factor = FormFactor.DIE_CUT ∨ specs.form_factor = FormFactor.ROUND_DIE_CUT then
    ImageOps.pad label_image specs.dots_printable "white"
  else
    label_image

/-- The tail of `print_label` once the media specs have been resolved: build
the printable image, the convert parameters, then select the destination
(IP address first, then USB) and send once per copy. -/
def printWithSpecs (s : Settings) (n_copies : Int) (label_image : Image)
    (specs : LabelSpec) : Trace :=
  let printable_image := printableOf specs label_image
  let params := mkConvertParams s printable_image
  if s.ip_address ≠ "" then
    { convert_calls := [params]
      sends := List.replicate n_copies.toNat
        { instructions := params
          printer_identifier := "tcp://" ++ s.ip_address
          backend_identifier := "network"
          blocking := true }
      error := none }
  else if s.usb_device ≠ "" then
    { convert_calls := [params]
      sends := List.replicate n_copies.toNat
        { instructions := params
          printer_identifier := "usb://" ++ s.usb_device
          backend_identifier := "pyusb"
          blocking := true }
      error := none }
  else
    { convert_calls := [params]
      sends := []
      error := some (PrintError.valueError "No IP address or USB device defined.") }

/-- `BrotherLabelPrinterDriver.print_label`: resolve the media specs by linear
scan, apply the 90°-offset rotation, then either fail with the re-raised
`AttributeError` naming the media type (when no catalog entry matched) or run
the conversion-and-send tail. -/
def print_label (catalog : List LabelSpec) (s : Settings) (n_copies : Int)
    (rendered : Image) : Trace :=
  let media_specs := lookupMedia catalog s.media_type
  let label_image := applyRotation s.rotation rendered
  match media_specs with
  | none =>
      { convert_calls := []
        sends := []
        error := some (PrintError.attributeError
          ("Could not find specifications of label media type \x27"
            ++ s.media_type ++ "\x27")) }
  | some specs => printWithSpecs s n_copies label_image specs

/-- Sequential execution of a list of transport calls against a fallible
transport, starting at copy index `i`: each call is attempted in order and the
first failure stops the loop with its error; returns the attempted calls and
the propagated error. -/
def runTransportFrom (fail : Nat → Option String) :
    Nat → List SendCall → List SendCall × Option String
  | _, [] => ([], none)
  | i, c :: rest =>
    match fail i with
    | some e => ([c], some e)
    | none =>
      let r := runTransportFrom fail (i + 1) rest
      (c :: r.1, r.2)

/-- Execution of the `for _i in range(n_copies): send(...)` loop. -/
def runTransport (fail : Nat → Option String) (calls : List SendCall) :
    List SendCall × Option String :=
  runTransportFrom fail 0 calls

/-! Concrete fixtures used to instantiate the theorems: a small catalog in the
shape of `brother_ql.labels.ALL_LABELS` and settings records. -/

/-- Continuous-roll 12mm media, as in `ALL_LABELS`. -/
def spec12 : LabelSpec :=
  { identifier := "12", form_factor := FormFactor.ENDLESS, dots_printable := (106, 0) }

/-- Die-cut 23mm x 23mm media, as in `ALL_LABELS`. -/
def spec23x23 : LabelSpec :=
  { identifier := "23x23", form_factor := FormFactor.DIE_CUT, dots_printable := (202, 202) }

/-- Round die-cut 24mm media, as in `ALL_LABELS`. -/
def specD24 : LabelSpec :=
  { identifier := "d24", form_factor := FormFactor.ROUND_DIE_CUT, dots_printable := (236, 236) }

/-- Dual-color 62mm media, as in `ALL_LABELS`. -/
def spec62red : LabelSpec :=
  { identifier := "62red", form_factor := FormFactor.ENDLESS, dots_printable := (696, 0) }

/-- A small media catalog. -/
def testCatalog : List LabelSpec := [spec12, spec23x23, specD24, spec62red]

/-- Baseline settings: networked printer, 12mm endless media, defaults. -/
def baseSettings : Settings :=
  { model := "QL-800", ip_address := "192.168.1.10", usb_device := ""
    media_type := "12", rotation := 0, auto_cut := true, compression := false
    hq := true }

/-- Settings selecting die-cut media. -/
def dieCutSettings : Settings := { baseSettings with media_type := "23x23" }

/-- Settings selecting a media identifier absent from the catalog. -/
def unknownMediaSettings : Settings := { baseSettings with media_type := "42x11" }

/-- Settings with neither an IP address nor a USB device. -/
def noDestSettings : Settings := { baseSettings with ip_address := "", usb_device := "" }

/-- Settings selecting the dual-color media. -/
def redSettings : Settings := { baseSettings with media_type := "62red" }

/-- Settings with both an IP address and a USB device configured. -/
def bothDestSettings : Settings := { baseSettings with usb_device := "04f9:2042" }

/-- A transport that fails on the second copy (index 1) with an I/O error. -/
def failSecondCopy : Nat → Option String :=
  fun i => if i = 1 then some "io error" else none

/-! Helper lemmas about the embedded operations. -/

/-- Python rounding of `a / b` never overshoots a strict integer bound. -/
theorem pyRoundDiv_le {a b c : Nat} (hb : 0 < b) (h : a < c * b) :
    pyRoundDiv a b ≤ c := by
  have hq : a / b < c := (Nat.div_lt_iff_lt_mul hb).mpr h
  unfold pyRoundDiv
  dsimp only
  split_ifs <;> omega

/-- `ImageOps.pad` always returns an image of exactly the requested size. -/
theorem ImageOps.pad_dims (image : Image) (size : Nat × Nat) (color : String) :
    (ImageOps.pad image size color).dims = size := by
  unfold ImageOps.pad
  dsimp only
  split_ifs with h1 h2 <;> simp_all [Image.dims]

/-- The contain-resized image fits within the requested size (dimensions are
positive, as for every PIL image handed to `ImageOps.contain` here). -/
theorem ImageOps.contain_fits (image : Image) (size : Nat × Nat)
    (hw : 0 < image.width) (hh : 0 < image.height) :
    (ImageOps.contain image size).dims.1 ≤ size.1 ∧
      (ImageOps.contain image size).dims.2 ≤ size.2 := by
  unfold ImageOps.contain
  dsimp only
  split_ifs with h1 h2 h3 h4 <;> simp only [Image.dims]
  · refine ⟨le_refl _, pyRoundDiv_le hw ?_⟩
    rw [Nat.mul_comm image.height size.1, Nat.mul_comm size.2 image.width]
    exact h2
  · exact ⟨le_refl _, le_refl _⟩
  · refine ⟨pyRoundDiv_le hh ?_, le_refl _⟩
    exact lt_of_le_of_ne (le_of_not_lt h2) h1
  · exact ⟨le_refl _, le_refl _⟩
  · exact ⟨le_refl _, le_refl _⟩

/-- The rotation step either keeps the dimensions or swaps them. -/
theorem applyRotation_dims (configured : Nat) (img : Image) :
    (applyRotation configured img).dims = img.dims ∨
      (applyRotation configured img).dims = (img.dims.2, img.dims.1) := by
  unfold applyRotation
  dsimp only
  split_ifs with h
  · simp only [Image.dims]
    split_ifs
    · right; rfl
    · left; rfl
  · left; rfl

/-- The rotation step preserves positivity of both dimensions. -/
theorem applyRotation_pos (configured : Nat) (img : Image)
    (hw : 0 < img.dims.1) (hh : 0 < img.dims.2) :
    0 < (applyRotation configured img).dims.1 ∧
      0 < (applyRotation configured img).dims.2 := by
  rcases applyRotation_dims configured img with h | h <;> rw [h]
  · exact ⟨hw, hh⟩
  · exact ⟨hh, hw⟩

/-- Unfolding `print_label` when the media lookup succeeds. -/
theorem print_label_some (catalog : List LabelSpec) (s : Settings) (n : Int)
    (rendered : Image) (specs : LabelSpec)
    (hlook : lookupMedia catalog s.media_type = some specs) :
    print_label catalog s n rendered =
      printWithSpecs s n (applyRotation s.rotation rendered) specs := by
  simp only [print_label]
  rw [hlook]

/-- Unfolding `print_label` when the media lookup fails: the `AttributeError`
is re-raised with the media type in the message, before any convert or
transport call. -/
theorem print_label_none (catalog : List LabelSpec) (s : Settings) (n : Int)
    (rendered : Image)
    (hlook : lookupMedia catalog s.media_type = none) :
    print_label catalog s n rendered =
      { convert_calls := []
        sends := []
        error := some (PrintError.attributeError
          ("Could not find specifications of label media type \x27"
            ++ s.media_type ++ "\x27")) } := by
  simp only [print_label]
  rw [hlook]

/-- Every branch of the conversion-and-send tail makes exactly one convert
call, on the printable image. -/
theorem printWithSpecs_convert_calls (s : Settings) (n : Int)
    (label_image : Image) (specs : LabelSpec) :
    (printWithSpecs s n label_image specs).convert_calls =
      [mkConvertParams s (printableOf specs label_image)] := by
  simp only [printWithSpecs]
  split_ifs <;> rfl

/-- The conversion-and-send tail with an IP address configured. -/
theorem printWithSpecs_ip (s : Settings) (n : Int) (label_image : Image)
    (specs : LabelSpec) (hip : s.ip_address ≠ "") :
    printWithSpecs s n label_image specs =
      { convert_calls := [mkConvertParams s (printableOf specs label_image)]
        sends := List.replicate n.toNat
          { instructions := mkConvertParams s (printableOf specs label_image)
            printer_identifier := "tcp://" ++ s.ip_address
            backend_identifier := "network"
            blocking := true }
        error := none } := by
  simp only [printWithSpecs]
  rw [if_pos hip]

/-- The conversion-and-send tail with no IP address but a USB device. -/
theorem printWithSpecs_usb (s : Settings) (n : Int) (label_image : Image)
    (specs : LabelSpec) (hip : s.ip_address = "") (husb : s.usb_device ≠ "") :
    printWithSpecs s n label_image specs =
      { convert_calls := [mkConvertParams s (printableOf specs label_image)]
        sends := List.replicate n.toNat
          { instructions := mkConvertParams s (printableOf specs label_image)
            printer_identifier := "usb://" ++ s.usb_device
            backend_identifier := "pyusb"
            blocking := true }
        error := none } := by
  simp only [printWithSpecs]
  rw [if_neg (by simp [hip]), if_pos husb]

/-- The conversion-and-send tail with no destination at all: the convert call
is still made, then the `ValueError` is raised before any send. -/
theorem printWithSpecs_noDest (s : Settings) (n : Int) (label_image : Image)
    (specs : LabelSpec) (hip : s.ip_address = "") (husb : s.usb_device = "") :
    printWithSpecs s n label_image specs =
      { convert_calls := [mkConvertParams s (printableOf specs label_image)]
        sends := []
        error := some (PrintError.valueError
          "No IP address or USB device defined.") } := by
  simp only [printWithSpecs]
  rw [if_neg (by simp [hip]), if_neg (by simp [husb])]

/-- The printable image of die-cut media is the white-padded image. -/
theorem printableOf_diecut (specs : LabelSpec) (label_image : Image)
    (hff : specs.form_factor = FormFactor.DIE_CUT ∨
      specs.form_factor = FormFactor.ROUND_DIE_CUT) :
    printableOf specs label_image =
      ImageOps.pad label_image specs.dots_printable "white" := by
  unfold printableOf
  rw [if_pos hff]

/-- The printable image of any other form factor is the image itself. -/
theorem printableOf_other (specs : LabelSpec) (label_image : Image)
    (hff : ¬(specs.form_factor = FormFactor.DIE_CUT ∨
      specs.form_factor = FormFactor.ROUND_DIE_CUT)) :
    printableOf specs label_image = label_image := by
  unfold printableOf
  rw [if_neg hff]

/-- Sequential transport execution: when the calls at indices below `k` all
succeed and the call at index `k` fails, exactly the first `k + 1` calls are
attempted and the error is returned as-is. -/
theorem runTransportFrom_fail (fail : Nat → Option String) (e : String) :
    ∀ (calls : List SendCall) (i k : Nat), k < calls.length →
      (∀ j, j < k → fail (i + j) = none) → fail (i + k) = some e →
      runTransportFrom fail i calls = (calls.take (k + 1), some e) := by
  intro calls
  induction calls with
  | nil =>
      intro i k hk _ _
      simp at hk
  | cons c rest ih =>
      intro i k hk hok hf
      cases k with
      | zero =>
          have h0 : fail i = some e := by simpa using hf
          simp [runTransportFrom, h0]
      | succ k' =>
          have h0 : fail i = none := by simpa using hok 0 (Nat.succ_pos k')
          have harg : i + 1 + k' = i + (k' + 1) := by omega
          have hrec := ih (i + 1) k' (by simpa using hk)
            (fun j hj => by
              have hj1 := hok (j + 1) (Nat.succ_lt_succ hj)
              have : i + 1 + j = i + (j + 1) := by omega
              rw [this]
              exact hj1)
            (by rw [harg]; exact hf)
          simp [runTransportFrom, h0, hrec]

/-! The claims. -/

/-- Claim C1: for die-cut and round die-cut media the image handed to the
raster-conversion call is the rotation-adjusted source contain-scaled
(aspect ratio preserved) and centered on a white canvas of exactly the
printable-dots size; its pixel dimensions equal the printable-dots dimensions
for every source size, and the scaled content fits within that rectangle. -/
theorem diecut_printable_image_exact_dims
    (catalog : List LabelSpec) (s : Settings) (n : Int) (rendered : Image)
    (specs : LabelSpec)
    (hlook : lookupMedia catalog s.media_type = some specs)
    (hff : specs.form_factor = FormFactor.DIE_CUT ∨
      specs.form_factor = FormFactor.ROUND_DIE_CUT)
    (hw : 0 < rendered.dims.1) (hh : 0 < rendered.dims.2) :
    (print_label catalog s n rendered).convert_calls =
      [mkConvertParams s
        (ImageOps.pad (applyRotation s.rotation rendered)
          specs.dots_printable "white")] ∧
    (ImageOps.pad (applyRotation s.rotation rendered)
      specs.dots_printable "white").dims = specs.dots_printable ∧
    (ImageOps.contain (applyRotation s.rotation rendered)
      specs.dots_printable).dims.1 ≤ specs.dots_printable.1 ∧
    (ImageOps.contain (applyRotation s.rotation rendered)
      specs.dots_printable).dims.2 ≤ specs.dots_printable.2 := by
  have hrot := applyRotation_pos s.rotation rendered hw hh
  have hfit := ImageOps.contain_fits (applyRotation s.rotation rendered)
    specs.dots_printable hrot.1 hrot.2
  refine ⟨?_, ImageOps.pad_dims _ _ _, hfit.1, hfit.2⟩
  rw [print_label_some catalog s n rendered specs hlook,
    printWithSpecs_convert_calls,
    printableOf_diecut specs _ hff]

/-- Witness for C1 at a concrete die-cut request. -/
theorem diecut_printable_image_exact_dims_witness :
    (print_label testCatalog dieCutSettings 1 (Image.source 100 50)).convert_calls =
      [mkConvertParams dieCutSettings
        (ImageOps.pad (applyRotation dieCutSettings.rotation (Image.source 100 50))
          spec23x23.dots_printable "white")] ∧
    (ImageOps.pad (applyRotation dieCutSettings.rotation (Image.source 100 50))
      spec23x23.dots_printable "white").dims = spec23x23.dots_printable ∧
    (ImageOps.contain (applyRotation dieCutSettings.rotation (Image.source 100 50))
      spec23x23.dots_printable).dims.1 ≤ spec23x23.dots_printable.1 ∧
    (ImageOps.contain (applyRotation dieCutSettings.rotation (Image.source 100 50))
      spec23x23.dots_printable).dims.2 ≤ spec23x23.dots_printable.2 :=
  diecut_printable_image_exact_dims testCatalog dieCutSettings 1
    (Image.source 100 50) spec23x23 (by decide) (Or.inl rfl)
    (by decide) (by decide)

/-- Claim C2: an unknown media identifier yields the configuration error
naming the identifier, with no convert call and no transport call. -/
theorem unknown_media_raises_named_error
    (catalog : List LabelSpec) (s : Settings) (n : Int) (rendered : Image)
    (hlook : lookupMedia catalog s.media_type = none) :
    print_label catalog s n rendered =
      { convert_calls := []
        sends := []
        error := some (PrintError.attributeError
          ("Could not find specifications of label media type \x27"
            ++ s.media_type ++ "\x27")) } :=
  print_label_none catalog s n rendered hlook

/-- Witness for C2 at a concrete unknown media identifier. -/
theorem unknown_media_raises_named_error_witness :
    print_label testCatalog unknownMediaSettings 1 (Image.source 100 50) =
      { convert_calls := []
        sends := []
        error := some (PrintError.attributeError
          ("Could not find specifications of label media type \x27"
            ++ unknownMediaSettings.media_type ++ "\x27")) } :=
  unknown_media_raises_named_error testCatalog unknownMediaSettings 1
    (Image.source 100 50) (by decide)

/-- Claim C3: with neither an IP address nor a USB device configured,
`print_label` raises a configuration error and makes zero transport calls. -/
theorem no_destination_raises_error
    (catalog : List LabelSpec) (s : Settings) (n : Int) (rendered : Image)
    (hip : s.ip_address = "") (husb : s.usb_device = "") :
    (print_label catalog s n rendered).sends = [] ∧
      ∃ e : PrintError, (print_label catalog s n rendered).error = some e := by
  cases hl : lookupMedia catalog s.media_type with
  | none =>
      rw [print_label_none catalog s n rendered hl]
      exact ⟨rfl, _, rfl⟩
  | some specs =>
      rw [print_label_some catalog s n rendered specs hl,
        printWithSpecs_noDest s n _ specs hip husb]
      exact ⟨rfl, _, rfl⟩

/-- Witness for C3 at a concrete destination-less request. -/
theorem no_destination_raises_error_witness :
    (print_label testCatalog noDestSettings 1 (Image.source 100 50)).sends = [] ∧
      ∃ e : PrintError,
        (print_label testCatalog noDestSettings 1 (Image.source 100 50)).error
          = some e :=
  no_destination_raises_error testCatalog noDestSettings 1
    (Image.source 100 50) (by decide) (by decide)

/-- Claim C4: for rotation inputs 0, 90, 180 and 270, the rotation actually
applied is `(input + 90) % 360`, with the canvas expanded to fit (the
dimensions swap at an effective 90 or 270); input 270 gives an effective
rotation of 0 and the image is returned without any rotate call. -/
theorem rotation_offset_applied
    (input : Nat) (img : Image)
    (h : input = 0 ∨ input = 90 ∨ input = 180 ∨ input = 270) :
    applyRotation input img =
      (if (input + 90) % 360 = 0 then img
        else Image.rotate img ((input + 90) % 360)) ∧
    (input = 270 → applyRotation input img = img) ∧
    (applyRotation input img).dims =
      (if (input + 90) % 360 = 90 ∨ (input + 90) % 360 = 270
        then (img.dims.2, img.dims.1) else img.dims) := by
  rcases h with h | h | h | h <;> subst h <;>
    exact ⟨rfl, by simp [applyRotation], rfl⟩

/-- Witness for C4 at input 270 (and a concrete bitmap). -/
theorem rotation_offset_applied_witness :
    applyRotation 270 (Image.source 3 4) =
      (if (270 + 90) % 360 = 0 then Image.source 3 4
        else Image.rotate (Image.source 3 4) ((270 + 90) % 360)) ∧
    (270 = 270 → applyRotation 270 (Image.source 3 4) = Image.source 3 4) ∧
    (applyRotation 270 (Image.source 3 4)).dims =
      (if (270 + 90) % 360 = 90 ∨ (270 + 90) % 360 = 270
        then ((Image.source 3 4).dims.2, (Image.source 3 4).dims.1)
        else (Image.source 3 4).dims) :=
  rotation_offset_applied 270 (Image.source 3 4) (by decide)

/-- Claim C5: a request for N copies makes exactly N sequential transport
calls, all identical (same instruction payload, destination identifier and
backend identifier). -/
theorem copies_make_n_identical_sends
    (catalog : List LabelSpec) (s : Settings) (n : Int) (rendered : Image)
    (specs : LabelSpec)
    (hlook : lookupMedia catalog s.media_type = some specs)
    (hback : s.ip_address ≠ "" ∨ s.usb_device ≠ "")
    (hn : 0 ≤ n) :
    ((print_label catalog s n rendered).sends.length : Int) = n ∧
      ∃ c : SendCall,
        (print_label catalog s n rendered).sends = List.replicate n.toNat c := by
  rw [print_label_some catalog s n rendered specs hlook]
  by_cases hip : s.ip_address ≠ ""
  · rw [printWithSpecs_ip s n _ specs hip]
    exact ⟨by simp [Int.toNat_of_nonneg hn], _, rfl⟩
  · have hip2 : s.ip_address = "" := not_not.mp hip
    have husb : s.usb_device ≠ "" := hback.resolve_left hip
    rw [printWithSpecs_usb s n _ specs hip2 husb]
    exact ⟨by simp [Int.toNat_of_nonneg hn], _, rfl⟩

/-- Witness for C5 at a concrete three-copy request. -/
theorem copies_make_n_identical_sends_witness :
    ((print_label testCatalog baseSettings 3 (Image.source 100 50)).sends.length
      : Int) = 3 ∧
      ∃ c : SendCall,
        (print_label testCatalog baseSettings 3 (Image.source 100 50)).sends =
          List.replicate (Int.toNat 3) c :=
  copies_make_n_identical_sends testCatalog baseSettings 3 (Image.source 100 50)
    spec12 (by decide) (Or.inl (by decide)) (by decide)

/-- Claim C6: the red-plane flag handed to the raster-conversion call is true
exactly when the media identifier is "62red". -/
theorem red_flag_iff_62red
    (catalog : List LabelSpec) (s : Settings) (n : Int) (rendered : Image)
    (specs : LabelSpec)
    (hlook : lookupMedia catalog s.media_type = some specs) :
    ∃ p : ConvertParams,
      (print_label catalog s n rendered).convert_calls = [p] ∧
        (p.red = true ↔ s.media_type = "62red") := by
  rw [print_label_some catalog s n rendered specs hlook,
    printWithSpecs_convert_calls]
  refine ⟨_, rfl, ?_⟩
  unfold mkConvertParams redFlag
  split_ifs with h
  · simp_all
  · simp_all

/-- Witness for C6 at a concrete dual-color request. -/
theorem red_flag_iff_62red_witness :
    ∃ p : ConvertParams,
      (print_label testCatalog redSettings 2 (Image.source 100 50)).convert_calls
          = [p] ∧
        (p.red = true ↔ redSettings.media_type = "62red") :=
  red_flag_iff_62red testCatalog redSettings 2 (Image.source 100 50)
    spec62red (by decide)

/-- Claim C7: for any non-die-cut (continuous roll) form factor, the image
handed to the raster-conversion call is the rotation-adjusted source itself,
with no resize and no padding. -/
theorem continuous_roll_passthrough
    (catalog : List LabelSpec) (s : Settings) (n : Int) (rendered : Image)
    (specs : LabelSpec)
    (hlook : lookupMedia catalog s.media_type = some specs)
    (hff : ¬(specs.form_factor = FormFactor.DIE_CUT ∨
      specs.form_factor = FormFactor.ROUND_DIE_CUT)) :
    (print_label catalog s n rendered).convert_calls =
      [mkConvertParams s (applyRotation s.rotation rendered)] ∧
    (mkConvertParams s (applyRotation s.rotation rendered)).images =
      [applyRotation s.rotation rendered] := by
  rw [print_label_some catalog s n rendered specs hlook,
    printWithSpecs_convert_calls,
    printableOf_other specs _ hff]
  exact ⟨rfl, rfl⟩

/-- Witness for C7 at a concrete continuous-roll request. -/
theorem continuous_roll_passthrough_witness :
    (print_label testCatalog baseSettings 1 (Image.source 100 50)).convert_calls =
      [mkConvertParams baseSettings
        (applyRotation baseSettings.rotation (Image.source 100 50))] ∧
    (mkConvertParams baseSettings
      (applyRotation baseSettings.rotation (Image.source 100 50))).images =
      [applyRotation baseSettings.rotation (Image.source 100 50)] :=
  continuous_roll_passthrough testCatalog baseSettings 1 (Image.source 100 50)
    spec12 (by decide) (by decide)

/-- Claim C8: when the transport call for copy N raises, exactly the first N
copies have been attempted (no later copy is attempted, the earlier copies
stand) and the error propagates unmodified. -/
theorem copy_failure_stops_after_n
    (catalog : List LabelSpec) (s : Settings) (n : Int) (rendered : Image)
    (fail : Nat → Option String) (e : String) (N : Nat)
    (hN : 1 ≤ N)
    (hNM : N ≤ (print_label catalog s n rendered).sends.length)
    (hok : ∀ i, i + 1 < N → fail i = none)
    (hf : fail (N - 1) = some e) :
    runTransport fail (print_label catalog s n rendered).sends =
      ((print_label catalog s n rendered).sends.take N, some e) := by
  unfold runTransport
  have hk : N - 1 < (print_label catalog s n rendered).sends.length := by omega
  have hN1 : N - 1 + 1 = N := by omega
  have h := runTransportFrom_fail fail e (print_label catalog s n rendered).sends
    0 (N - 1) hk
    (fun j hj => by
      rw [Nat.zero_add]
      exact hok j (by omega))
    (by rw [Nat.zero_add]; exact hf)
  rw [h, hN1]

/-- Witness for C8: three copies, the second transport call fails. -/
theorem copy_failure_stops_after_n_witness :
    runTransport failSecondCopy
        (print_label testCatalog baseSettings 3 (Image.source 100 50)).sends =
      ((print_label testCatalog baseSettings 3 (Image.source 100 50)).sends.take 2,
        some "io error") :=
  copy_failure_stops_after_n testCatalog baseSettings 3 (Image.source 100 50)
    failSecondCopy "io error" 2 (by decide) (by decide)
    (fun i hi => by
      have h0 : i = 0 := by omega
      subst h0
      rfl)
    (by rfl)

/-- Claim C9: the raster-conversion call is made with rotation fixed at zero
and the bundle of resolved settings: media id, cut flag, compression flag,
quality flag and red flag (plus the printer model determining the raster
object). -/
theorem convert_called_with_zero_rotation_bundle
    (catalog : List LabelSpec) (s : Settings) (n : Int) (rendered : Image)
    (specs : LabelSpec)
    (hlook : lookupMedia catalog s.media_type = some specs) :
    ∃ p : ConvertParams,
      (print_label catalog s n rendered).convert_calls = [p] ∧
      p.rotate = 0 ∧ p.label = s.media_type ∧ p.cut = s.auto_cut ∧
      p.compress = s.compression ∧ p.hq = s.hq ∧
      p.red = redFlag s.media_type ∧ p.model = s.model := by
  rw [print_label_some catalog s n rendered specs hlook,
    printWithSpecs_convert_calls]
  exact ⟨_, rfl, rfl, rfl, rfl, rfl, rfl, rfl, rfl⟩

/-- Witness for C9 at a concrete request. -/
theorem convert_called_with_zero_rotation_bundle_witness :
    ∃ p : ConvertParams,
      (print_label testCatalog baseSettings 1 (Image.source 100 50)).convert_calls
          = [p] ∧
      p.rotate = 0 ∧ p.label = baseSettings.media_type ∧
      p.cut = baseSettings.auto_cut ∧ p.compress = baseSettings.compression ∧
      p.hq = baseSettings.hq ∧ p.red = redFlag baseSettings.media_type ∧
      p.model = baseSettings.model :=
  convert_called_with_zero_rotation_bundle testCatalog baseSettings 1
    (Image.source 100 50) spec12 (by decide)

/-- Claim C10: when both an IP address and a USB device are configured, every
transport call goes to the network destination `tcp://<ip>` with the network
backend; the USB identifier is ignored. -/
theorem both_destinations_prefer_network
    (catalog : List LabelSpec) (s : Settings) (n : Int) (rendered : Image)
    (specs : LabelSpec)
    (hip : s.ip_address ≠ "") (husb : s.usb_device ≠ "")
    (hlook : lookupMedia catalog s.media_type = some specs) :
    (print_label catalog s n rendered).error = none ∧
    (print_label catalog s n rendered).sends =
      List.replicate n.toNat
        { instructions := mkConvertParams s
            (printableOf specs (applyRotation s.rotation rendered))
          printer_identifier := "tcp://" ++ s.ip_address
          backend_identifier := "network"
          blocking := true } := by
  rw [print_label_some catalog s n rendered specs hlook,
    printWithSpecs_ip s n _ specs hip]
  exact ⟨rfl, rfl⟩

/-- Witness for C10 at a concrete request with both destinations set. -/
theorem both_destinations_prefer_network_witness :
    (print_label testCatalog bothDestSettings 2 (Image.source 100 50)).error
        = none ∧
    (print_label testCatalog bothDestSettings 2 (Image.source 100 50)).sends =
      List.replicate (Int.toNat 2)
        { instructions := mkConvertParams bothDestSettings
            (printableOf spec12
              (applyRotation bothDestSettings.rotation (Image.source 100 50)))
          printer_identifier := "tcp://" ++ bothDestSettings.ip_address
          backend_identifier := "network"
          blocking := true } :=
  both_destinations_prefer_network testCatalog bothDestSettings 2
    (Image.source 100 50) spec12 (by decide) (by decide) (by decide)

end BrotherPlugin
